import Mathlib

/-!
Shallow embedding of `src/vnc/server.py` (class `VNCProxyServer`): the local
VNC relay server of pvecli.  Pure fragments of the Python code are translated
into Lean functions; the mutable connection-lifecycle state becomes explicit
state passing over a `ConnState` record; the background run loop becomes a
recursion over a trace of once-per-second observations.  Machine integers are
modelled as `Int`/`Nat` (Python integers are unbounded, so no wraparound is
involved); monotonic time is modelled as `Nat` seconds.
-/

/-! ## Percent-encoding (`urllib.parse.quote` / `urllib.parse.unquote`) -/

/-- Upper-case hexadecimal digit, as produced by `urllib.parse.quote`. -/
def hexUpper (n : Nat) : Char :=
  if n < 10 then Char.ofNat (48 + n) else Char.ofNat (55 + n)

/-- The bytes `urllib.parse.quote` never encodes (`_ALWAYS_SAFE`):
ASCII letters, digits, and `_.-~`. -/
def isAlwaysSafeByte (b : Nat) : Bool :=
  (65 ≤ b && b ≤ 90) || (97 ≤ b && b ≤ 122) || (48 ≤ b && b ≤ 57) ||
  b == 95 || b == 46 || b == 45 || b == 126

/-- UTF-8 encoding of one character (the CPython `str.encode("utf-8")` step,
which `urllib.parse.quote` applies before percent-encoding). -/
def utf8EncodeCharM (c : Char) : List Nat :=
  let n := c.toNat
  if n < 128 then [n]
  else if n < 2048 then [192 + n / 64, 128 + n % 64]
  else if n < 65536 then [224 + n / 4096, 128 + (n / 64) % 64, 128 + n % 64]
  else [240 + n / 262144, 128 + (n / 4096) % 64, 128 + (n / 64) % 64, 128 + n % 64]

/-- UTF-8 bytes of a string. -/
def utf8Bytes (s : String) : List Nat :=
  s.toList.foldr (fun c acc => utf8EncodeCharM c ++ acc) []

/-- Percent-encode one byte: kept verbatim when always-safe or listed in
`safe` (ASCII only, as in CPython), otherwise `%XX` with upper-case hex. -/
def quoteByte (safe : List Char) (b : Nat) : List Char :=
  if isAlwaysSafeByte b || (b < 128 && safe.contains (Char.ofNat b)) then
    [Char.ofNat b]
  else
    ['%', hexUpper (b / 16), hexUpper (b % 16)]

/-- Model of `urllib.parse.quote(s, safe)`.  The server always calls it with
`safe = ""`, i.e. no character is exempted beyond the always-safe set. -/
def pythonQuote (s : String) (safe : List Char) : String :=
  String.mk ((utf8Bytes s).foldr (fun b acc => quoteByte safe b ++ acc) [])

/-- Hexadecimal digit value accepted by `urllib.parse.unquote`
(both cases). -/
def hexVal (c : Char) : Option Nat :=
  if 48 ≤ c.toNat && c.toNat ≤ 57 then some (c.toNat - 48)
  else if 65 ≤ c.toNat && c.toNat ≤ 70 then some (c.toNat - 55)
  else if 97 ≤ c.toNat && c.toNat ≤ 102 then some (c.toNat - 87)
  else none

/-- Percent-decoding scan of `urllib.parse.unquote`: a `%` followed by two
hex digits becomes the denoted byte, anything else is kept verbatim.  This is
exact for ASCII escape sequences (the only ones the claims exercise);
multi-byte UTF-8 escape sequences are decoded bytewise. -/
def percentDecodeChars : List Char → List Char
  | '%' :: h1 :: h2 :: rest =>
    match hexVal h1, hexVal h2 with
    | some a, some b => Char.ofNat (16 * a + b) :: percentDecodeChars rest
    | _, _ => '%' :: percentDecodeChars (h1 :: h2 :: rest)
  | c :: rest => c :: percentDecodeChars rest
  | [] => []

/-- Model of `urllib.parse.unquote` on a request path. -/
def unquoteStr (s : String) : String :=
  String.mk (percentDecodeChars s.toList)

/-! ## Character-level models of the Python `str` operations used -/

/-- Model of the Python `str.lower()` (exact on ASCII; header names and the
literals compared against are ASCII). -/
def strLower (s : String) : String :=
  String.mk (s.data.map Char.toLower)

/-- Model of the Python `str.startswith(pre)`. -/
def strStartsWith (s pre : String) : Bool :=
  pre.data.isPrefixOf s.data

/-- Split a character list at `/` (the chunks `str.split("/")` would
produce, as character lists). -/
def splitSeg : List Char → List (List Char)
  | [] => [[]]
  | '/' :: rest => [] :: splitSeg rest
  | c :: rest =>
    match splitSeg rest with
    | s :: ss => (c :: s) :: ss
    | [] => [[c]]

/-! ## Connection-lifecycle state (`_active_connections`, `_ever_connected`,
`_last_disconnect`) -/

/-- The mutable counters of `VNCProxyServer`: `_active_connections` (a Python
int, modelled as `Int`), `_ever_connected`, and `_last_disconnect`
(monotonic time, modelled as `Nat` seconds). -/
structure ConnState where
  active : Int
  everConnected : Bool
  lastDisconnect : Nat
deriving DecidableEq

/-- Initial state set by `__init__`: `0`, `False`, `0`. -/
def initState : ConnState := { active := 0, everConnected := false, lastDisconnect := 0 }

/-- The state effect of `handle_vnc_proxy`, run to completion: increment the
counter and set the flag on entry; the body (`_proxy_to_proxmox`) either
returns or raises (`outcome`), and `except Exception: pass` swallows either
way; the `finally` block decrements the counter and records the current
monotonic time as `_last_disconnect` unconditionally. -/
def handleRun (s : ConnState) (outcome : Except Unit Unit) (now : Nat) : ConnState :=
  let s1 : ConnState := { s with active := s.active + 1, everConnected := true }
  let s2 : ConnState :=
    match outcome with
    | Except.ok _ => s1
    | Except.error _ => s1
  { s2 with active := s2.active - 1, lastDisconnect := now }

/-- Function `handle_vnc_proxy` as seen by its caller: the outcome of the session body is
caught, so the handler always returns normally (`Except.ok`); a `.error`
result would model an exception propagating out of the handler. -/
def handle_vnc_proxy (s : ConnState) (outcome : Except Unit Unit) (now : Nat) :
    Except Unit ConnState :=
  Except.ok (handleRun s outcome now)

/-! ## Interleaved sessions: the two state-mutating code blocks of
`handle_vnc_proxy`, as events -/

/-- The two state mutations of `handle_vnc_proxy`, split so that concurrent
handlers may interleave: session entry (lines 110-111) and session exit
(the `finally` block, lines 118-119). -/
inductive REvent
  | sessionStart
  | sessionEnd (now : Nat)
deriving DecidableEq

/-- Apply one event to the connection state. -/
def applyEvent (s : ConnState) : REvent → ConnState
  | REvent.sessionStart => { s with active := s.active + 1, everConnected := true }
  | REvent.sessionEnd t => { s with active := s.active - 1, lastDisconnect := t }

/-- Run a trace of events. -/
def runTrace (s : ConnState) (es : List REvent) : ConnState :=
  es.foldl applyEvent s

/-- A trace is well nested when every `sessionEnd` is the `finally` block of
a handler whose entry increment already ran: `bal` open sessions are
outstanding, and an end requires one to be open.  This is exactly the
protocol `handle_vnc_proxy` follows (increment first, decrement once in
`finally`). -/
def wellNested : Int → List REvent → Bool
  | _, [] => true
  | bal, REvent.sessionStart :: r => wellNested (bal + 1) r
  | bal, REvent.sessionEnd _ :: r => decide (0 < bal) && wellNested (bal - 1) r

/-- Event traces produced by interleaved `handle_vnc_proxy` executions
starting from a state with no open session. -/
def ValidTrace (es : List REvent) : Prop := wellNested 0 es = true

/-! ## Header filtering (`__init__`, lines 51-55) -/

/-- The loop over `auth_headers.items()`: keep a header exactly when its
name lower-cases to `cookie` or `authorization`.  Dicts are modelled as
association lists in iteration order. -/
def keepHeader (k : String) : Bool :=
  strLower k == "cookie" || strLower k == "authorization"

/-- Field `ws_headers`: the filtered outbound-authentication header map. -/
def filterAuthHeaders (hs : List (String × String)) : List (String × String) :=
  hs.filter (fun kv => keepHeader kv.1)

/-! ## Server configuration (`__init__`) -/

/-- The immutable construction parameters of `VNCProxyServer`, plus the
derived `ws_headers` (computed once in `__init__`). -/
structure VNCProxyServer where
  proxmox_host : String
  proxmox_port : Nat
  ws_path : String
  vncticket : String
  pve_port : Nat
  local_port : Nat
  verify_ssl : Bool
  vnc_password : Option String
  ws_headers : List (String × String)
deriving DecidableEq

/-- Constructor `__init__` with all keyword arguments supplied. -/
def VNCProxyServer.make (host : String) (port : Nat) (wsPath : String)
    (ticket : String) (pvePort : Nat) (authHeaders : List (String × String))
    (localPort : Nat) (verifySsl : Bool) (vncPassword : Option String) :
    VNCProxyServer :=
  { proxmox_host := host
    proxmox_port := port
    ws_path := wsPath
    vncticket := ticket
    pve_port := pvePort
    local_port := localPort
    verify_ssl := verifySsl
    vnc_password := vncPassword
    ws_headers := filterAuthHeaders authHeaders }

/-- Construction without specifying `verify_ssl` or `vnc_password`: the
Python defaults `verify_ssl=False`, `vnc_password=None` apply. -/
def VNCProxyServer.makeNoFlags (host : String) (port : Nat) (wsPath : String)
    (ticket : String) (pvePort : Nat) (authHeaders : List (String × String))
    (localPort : Nat) : VNCProxyServer :=
  VNCProxyServer.make host port wsPath ticket pvePort authHeaders localPort
    false none

/-! ## Browser entry URL (`get_browser_url`) -/

/-- Python truthiness of the `str | None` field `vnc_password`: `None` and
the empty string are falsy. -/
def optStrTruthy : Option String → Bool
  | none => false
  | some s => !(s == "")

/-- Method `get_browser_url`. -/
def VNCProxyServer.get_browser_url (srv : VNCProxyServer) : String :=
  let url := "http://localhost:" ++ toString srv.local_port ++
    "/vnc.html?path=vnc-proxy&resize=scale&autoconnect=true"
  if optStrTruthy srv.vnc_password then
    url ++ "&password=" ++ pythonQuote (srv.vnc_password.getD "") []
  else
    url

/-! ## Outbound URL and TLS context (`_proxy_to_proxmox`, lines 122-131) -/

/-- Variable `target_url`, built by the f-string at lines 122-126. -/
def VNCProxyServer.target_url (srv : VNCProxyServer) : String :=
  "wss://" ++ srv.proxmox_host ++ ":" ++ toString srv.proxmox_port ++
  srv.ws_path ++
  "?port=" ++ toString srv.pve_port ++ "&vncticket=" ++
  pythonQuote srv.vncticket []

/-- The `ssl.VerifyMode` values used by the server. -/
inductive VerifyMode
  | CERT_NONE
  | CERT_REQUIRED
deriving DecidableEq

/-- The two fields of `ssl.SSLContext` the server touches. -/
structure SSLCtx where
  check_hostname : Bool
  verify_mode : VerifyMode
deriving DecidableEq

/-- Model of `ssl.SSLContext(ssl.PROTOCOL_TLS_CLIENT)`: per CPython, the
client-protocol constructor enables hostname checking and certificate
verification by default. -/
def tlsClientDefault : SSLCtx := { check_hostname := true, verify_mode := VerifyMode.CERT_REQUIRED }

/-- Lines 128-131: build the outbound TLS context, stripping verification
when `verify_ssl` is false. -/
def mkOutboundCtx (verifySsl : Bool) : SSLCtx :=
  let ctx := tlsClientDefault
  if !verifySsl then
    { ctx with check_hostname := false, verify_mode := VerifyMode.CERT_NONE }
  else
    ctx

/-! ## Static file serving (`process_request`, `_serve_static`)

POSIX paths are modelled as lists of name segments under the root `/`.
`NOVNC_ROOT = Path(__file__).parent / "novnc"` is an absolute, already
resolved directory whose unknown parent is the parameter `rootParent`;
its final segment is the literal `"novnc"`. -/

/-- Model of `urlparse(request.path).path` for an HTTP origin-form request target
(which starts with `/`): the part before the first `?` or `#`. -/
def stripQueryFragment (s : String) : String :=
  String.mk (s.toList.takeWhile (fun c => !(c == '?') && !(c == '#')))

/-- The name segments of a `PurePosixPath`: split on `/`, dropping empty
chunks and `.` segments (`..` is kept, uninterpreted). -/
def posixSegments (s : String) : List String :=
  ((splitSeg s.data).map String.mk).filter (fun c => !(c == "") && !(c == "."))

/-- CPython treats a path starting with exactly two slashes as having the
implementation-defined anchor `//`, distinct from `/`. -/
def doubleSlashRoot (s : String) : Bool :=
  strStartsWith s "//" && !(strStartsWith s "///")

/-- Model of `PurePosixPath(url_path).relative_to("/")`: succeeds exactly when the
path is absolute with anchor `/`; otherwise `ValueError` (`none`). -/
def relativeToRoot (s : String) : Option (List String) :=
  if strStartsWith s "/" && !(doubleSlashRoot s) then some (posixSegments s)
  else none

/-- Model of `(base / rel).resolve()` for an already-resolved absolute `base` and a
relative `rel`, with no symlinks present: `..` pops one segment (a no-op at
the root), other segments are appended. -/
def resolveSegs (base : List String) (rel : List String) : List String :=
  rel.foldl (fun acc seg => if seg == ".." then acc.dropLast else acc ++ [seg]) base

/-- Concatenation of path segments with `/` separators. -/
def joinSegs : List String → String
  | [] => ""
  | [a] => a
  | a :: rest => a ++ "/" ++ joinSegs rest

/-- Rendering by `str()` of an absolute path given by its segments. -/
def renderAbs (segs : List String) : String :=
  "/" ++ joinSegs segs

/-- Outcome of `Path.read_bytes()` on the resolved path: the two caught
exceptions, or the file bytes (modelled as a `String`). -/
inductive ReadResult
  | notFound
  | isDir
  | bytes (body : String)
deriving DecidableEq

/-- An HTTP response: status code and body.  (`Content-Type` and
`Content-Length` headers are not modelled; no claim mentions them.) -/
structure HResponse where
  status : Nat
  body : String
deriving DecidableEq

/-- Helper `_http_error`: body `f"{status.value} {status.phrase}\n"`. -/
def http_error (status : Nat) (phrase : String) : HResponse :=
  { status := status, body := toString status ++ " " ++ phrase ++ "\n" }

/-- Method `_serve_static`, parameterised by the resolved segments of
the parent directory of `NOVNC_ROOT` and by the filesystem (a map from resolved
absolute paths to read outcomes). -/
def serve_static (rootParent : List String) (fs : List String → ReadResult)
    (urlPath : String) : HResponse :=
  let urlPath := if urlPath == "/" || urlPath == "" then "/vnc.html" else urlPath
  match relativeToRoot urlPath with
  | none => http_error 400 "Bad Request"
  | some rel =>
    let root := rootParent ++ ["novnc"]
    let resolved := resolveSegs root rel
    if !(strStartsWith (renderAbs resolved) (renderAbs root)) then
      http_error 403 "Forbidden"
    else
      match fs resolved with
      | ReadResult.notFound => http_error 404 "Not Found"
      | ReadResult.isDir => http_error 404 "Not Found"
      | ReadResult.bytes b => { status := 200, body := b }

/-- Method `process_request`: percent-decode the request path; `/vnc-proxy`
proceeds to the WebSocket upgrade (`none`), everything else is served
statically. -/
def process_request (rootParent : List String) (fs : List String → ReadResult)
    (requestPath : String) : Option HResponse :=
  let path := unquoteStr (stripQueryFragment requestPath)
  if path == "/vnc-proxy" then none
  else some (serve_static rootParent fs path)

/-! ## Background run loop (`run` with `interactive=False`, lines 199-206)

The loop wakes once per second and reads the live mutable state; it is
modelled as a recursion over the trace of observations `(state, now)` the
successive wake-ups make.  It exits at the first observation satisfying the
guard of lines 203-205. -/

/-- Constant `DISCONNECT_GRACE` (line 25). -/
def DISCONNECT_GRACE : Nat := 5

/-- The exit guard of lines 203-205: ever connected, zero active
connections, and idle time at least the grace period. -/
def shouldExit (s : ConnState) (now : Nat) : Bool :=
  s.everConnected && s.active == 0 && decide (DISCONNECT_GRACE ≤ now - s.lastDisconnect)

/-- The `while True` loop of background mode over a trace of observations:
returns the index of the wake-up at which it breaks, or `none` if it never
exits within the trace. -/
def runBackground : List (ConnState × Nat) → Option Nat
  | [] => none
  | (s, t) :: rest =>
    if shouldExit s t then some 0 else (runBackground rest).map (fun i => i + 1)

/-! ## Spec-side templates (named from the wording of the specification,
for refinement comparisons) -/

/-- Spec wording of the outbound URL (section 4.3):
`wss://{host}:{port}{ws_path}?port={remote_console_port}&vncticket={ticket}`
with the ticket percent-encoded and no character exempted from encoding
(empty safe set). -/
def specTargetUrl (host : String) (port : Nat) (wsPath : String)
    (pvePort : Nat) (ticket : String) : String :=
  "wss://" ++ host ++ ":" ++ toString port ++ wsPath ++
  "?port=" ++ toString pvePort ++ "&vncticket=" ++ pythonQuote ticket []

/-- Spec wording of the browser entry URL (section 4.6), amended to the
behaviour the code exhibits: the `password=` argument is appended exactly
when a NON-EMPTY password was supplied. -/
def specBrowserUrl (localPort : Nat) (pw : Option String) : String :=
  let base := "http://localhost:" ++ toString localPort ++
    "/vnc.html?path=vnc-proxy&resize=scale&autoconnect=true"
  match pw with
  | some p => if p = "" then base else base ++ "&password=" ++ pythonQuote p []
  | none => base

/-- Decide whether a URL carries a `password=` query argument. -/
def hasPasswordParam (u : String) : Bool :=
  u.data.tails.any (fun t => "password=".data.isPrefixOf t)

/-- A server constructed with an explicitly supplied, but empty, one-time
console password. -/
def emptyPwServer : VNCProxyServer :=
  VNCProxyServer.make "pve.example" 8006 "/ws" "TICKET" 5900 [] 6080 false
    (some "")

/-! ## Theorems -/

/-- C1: the claim states that every request path resolving outside the
asset root gets a Forbidden response and never file contents.  The code
checks containment with a string `startswith` against the root path WITHOUT
a trailing separator, so a sibling of the root whose name extends `novnc`
passes the check: the percent-encoded traversal `/%2e%2e/novncEVIL/secret.txt`
resolves to `{parent}/novncEVIL/secret.txt`, which lies outside the root
`{parent}/novnc` (second conjunct), yet the handler serves the file bytes
with status 200 (first conjunct) instead of Forbidden. -/
theorem serve_static_prefix_escape_serves_outside_root :
    process_request ["home", "user", "pkg"]
      (fun p => if p == ["home", "user", "pkg", "novncEVIL", "secret.txt"]
        then ReadResult.bytes "TOPSECRET" else ReadResult.notFound)
      "/%2e%2e/novncEVIL/secret.txt"
      = some { status := 200, body := "TOPSECRET" } ∧
    (["home", "user", "pkg", "novnc"].isPrefixOf
      (resolveSegs (["home", "user", "pkg"] ++ ["novnc"])
        (posixSegments (unquoteStr "/%2e%2e/novncEVIL/secret.txt")))) = false := by
  constructor
  · rfl
  · rfl

/-- C2 counterexample: the claim states that the insecure TLS mode is never
the default.  But `verify_ssl` defaults to `False` in `__init__`, so a relay
constructed without specifying the flag gets an outbound TLS context with
hostname checking disabled (and `CERT_NONE`). -/
theorem default_construction_disables_tls_verification :
    ¬ ((mkOutboundCtx (VNCProxyServer.makeNoFlags "pve.example" 8006
        "/ws" "TICKET" 5900 [] 6080).verify_ssl).check_hostname = true) := by
  decide

/-- C2 amended: hostname verification and certificate validation are
disabled exactly when the TLS-verification flag is false; however the flag
DEFAULTS to false when the relay is constructed without specifying it, so
the insecure mode is the default rather than an explicit opt-in. -/
theorem tls_context_insecure_iff_verify_ssl_false :
    (∀ v : Bool, (((mkOutboundCtx v).check_hostname = false ∧
        (mkOutboundCtx v).verify_mode = VerifyMode.CERT_NONE) ↔ v = false)) ∧
    (∀ h p wp tk pp ah lp,
      (VNCProxyServer.makeNoFlags h p wp tk pp ah lp).verify_ssl = false) :=
  ⟨by decide, fun _ _ _ _ _ _ _ => rfl⟩

/-- C6: the outbound WebSocket URL equals the template
`wss://{host}:{port}{ws_path}?port={remote_console_port}&vncticket={ticket}`
with the ticket percent-encoded under the empty safe set and the other
components substituted verbatim; the second conjunct checks on a concrete
ticket that reserved characters really are percent-encoded. -/
theorem target_url_matches_spec_template :
    (∀ srv : VNCProxyServer, srv.target_url =
      specTargetUrl srv.proxmox_host srv.proxmox_port srv.ws_path
        srv.pve_port srv.vncticket) ∧
    pythonQuote "TICK:ET/1+=" [] = "TICK%3AET%2F1%2B%3D" :=
  ⟨fun _ => rfl, by rfl⟩

/-- C7 counterexample: the claim states the `password=` argument is present
exactly when a password was supplied at construction.  Supplying the empty
string IS supplying a password (`vnc_password ≠ None`), yet Python
truthiness (`if self.vnc_password:`) omits the argument. -/
theorem get_browser_url_empty_password_omitted :
    ¬ (emptyPwServer.vnc_password ≠ none →
       hasPasswordParam emptyPwServer.get_browser_url = true) := by
  decide

/-- C7 amended: the browser URL equals
`http://localhost:{local_port}/vnc.html?path=vnc-proxy&resize=scale&autoconnect=true`,
with a percent-encoded `password=` argument appended exactly when a
NON-EMPTY password was supplied at construction (Python truthiness treats
an empty-string password like `None`). -/
theorem get_browser_url_password_iff_nonempty :
    ∀ srv : VNCProxyServer,
      srv.get_browser_url = specBrowserUrl srv.local_port srv.vnc_password := by
  intro srv
  unfold VNCProxyServer.get_browser_url specBrowserUrl optStrTruthy
  match srv.vnc_password with
  | none => rfl
  | some p =>
    by_cases hp : p = "" <;> simp [hp, Option.getD]

/-- C9 counterexample: the claim states the last-disconnect timestamp is
updated when AND ONLY WHEN the active count reaches zero.  Terminating one
session while another is still active (pre-state count 1, so count 2 → 1
inside the handler) leaves the count nonzero, yet the `finally` block still
overwrites `_last_disconnect` with the current time (0 → 7). -/
theorem last_disconnect_updated_while_sessions_active :
    ¬ ((handleRun { active := 1, everConnected := true, lastDisconnect := 0 }
          (Except.ok ()) 7).active ≠ 0 →
        (handleRun { active := 1, everConnected := true, lastDisconnect := 0 }
          (Except.ok ()) 7).lastDisconnect = 0) := by
  decide

/-- C9 amended: every session termination decrements the counter back to
its pre-accept value and unconditionally records the current monotonic time
as `_last_disconnect` — in particular this holds when the count reaches
zero, but also on terminations that leave other sessions active. -/
theorem handleRun_always_records_disconnect_time :
    ∀ (s : ConnState) (o : Except Unit Unit) (t : Nat),
      (handleRun s o t).lastDisconnect = t ∧
      (handleRun s o t).active = s.active := by
  intro s o t
  cases o <;> exact ⟨rfl, by simp [handleRun]⟩

/-- C3: the header filter keeps exactly the entries whose name matches
`cookie` or `authorization` case-insensitively; it is idempotent; it maps a
map with neither header to the empty map; and it removes a CSRF-token
header regardless of casing. -/
theorem filterAuthHeaders_spec :
    (∀ (hs : List (String × String)) (kv : String × String),
      kv ∈ filterAuthHeaders hs ↔
        kv ∈ hs ∧ (strLower kv.1 = "cookie" ∨ strLower kv.1 = "authorization")) ∧
    (∀ hs, filterAuthHeaders (filterAuthHeaders hs) = filterAuthHeaders hs) ∧
    (∀ hs, (∀ kv ∈ hs, strLower kv.1 ≠ "cookie" ∧ strLower kv.1 ≠ "authorization") →
      filterAuthHeaders hs = []) ∧
    (∀ (hs : List (String × String)) (k v : String),
      strLower k = "csrfpreventiontoken" → (k, v) ∉ filterAuthHeaders hs) := by
  refine ⟨?_, ?_, ?_, ?_⟩
  · intro hs kv
    simp [filterAuthHeaders, keepHeader, List.mem_filter]
  · intro hs
    simp [filterAuthHeaders, List.filter_filter]
  · intro hs h
    rw [filterAuthHeaders, List.filter_eq_nil_iff]
    intro kv hm
    have := h kv hm
    simp [keepHeader, this.1, this.2]
  · intro hs k v hcsrf hm
    rw [filterAuthHeaders, List.mem_filter] at hm
    have hk : keepHeader k = true := hm.2
    rw [keepHeader, hcsrf] at hk
    simp at hk

/-- C3 witness: the filter empties a CSRF-only map and drops the CSRF
header (whatever its casing) from a mixed map. -/
theorem filterAuthHeaders_spec_witness :
    filterAuthHeaders [("X-Custom", "v"), ("CSRFPreventionToken", "tok")] = [] ∧
    ("CSRFPreventionToken", "tok") ∉
      filterAuthHeaders [("CSRFPreventionToken", "tok"), ("Cookie", "PVEAuthCookie=abc")] :=
  ⟨filterAuthHeaders_spec.2.2.1 [("X-Custom", "v"), ("CSRFPreventionToken", "tok")]
      (by decide),
   filterAuthHeaders_spec.2.2.2 [("CSRFPreventionToken", "tok"), ("Cookie", "PVEAuthCookie=abc")]
      "CSRFPreventionToken" "tok" (by decide)⟩

/-- C4: whatever the outcome of the relay session body (clean return or a
raised exception), `handle_vnc_proxy` itself returns normally — per-session
errors do not propagate out of the handler — and in the post state the
active-connection counter is back at its pre-accept value (and the
ever-connected flag is set). -/
theorem handle_vnc_proxy_contains_errors_and_restores_counter :
    ∀ (s : ConnState) (o : Except Unit Unit) (t : Nat),
      ∃ s', handle_vnc_proxy s o t = Except.ok s' ∧
        s'.active = s.active ∧ s'.everConnected = true := by
  intro s o t
  refine ⟨handleRun s o t, rfl, ?_, ?_⟩ <;> cases o <;> simp [handleRun]

/-- C5: in background mode the run loop (i) exits only at an observation
where the server has connected at least once, the active count is zero and
the idle time since the last disconnect is at least the 5-second grace
period, and (ii) never exits on a trace throughout which no connection has
ever been established. -/
theorem runBackground_exit_conditions :
    (∀ (tr : List (ConnState × Nat)) (i : Nat), runBackground tr = some i →
      ∃ s t, tr.get? i = some (s, t) ∧ s.everConnected = true ∧ s.active = 0 ∧
        DISCONNECT_GRACE ≤ t - s.lastDisconnect) ∧
    (∀ tr : List (ConnState × Nat),
      (∀ p ∈ tr, p.1.everConnected = false) → runBackground tr = none) := by
  constructor
  · intro tr
    induction tr with
    | nil => intro i h; simp [runBackground] at h
    | cons hd tl ih =>
      intro i h
      obtain ⟨s, t⟩ := hd
      rw [runBackground] at h
      by_cases hc : shouldExit s t = true
      · rw [if_pos hc] at h
        obtain rfl : (0 : Nat) = i := Option.some.inj h
        have hc2 := hc
        rw [shouldExit] at hc2
        simp only [Bool.and_eq_true, beq_iff_eq, decide_eq_true_eq] at hc2
        exact ⟨s, t, rfl, hc2.1.1, hc2.1.2, hc2.2⟩
      · rw [if_neg hc] at h
        obtain ⟨j, hj, rfl⟩ := Option.map_eq_some'.mp h
        obtain ⟨s', t', hget, h1, h2, h3⟩ := ih j hj
        exact ⟨s', t', by simpa using hget, h1, h2, h3⟩
  · intro tr hall
    induction tr with
    | nil => rfl
    | cons hd tl ih =>
      have h1 : hd.1.everConnected = false := hall hd (List.mem_cons_self hd tl)
      rw [runBackground]
      have hc : shouldExit hd.1 hd.2 = false := by
        rw [shouldExit, h1]
        rfl
      rw [ih (fun p hp => hall p (List.mem_cons_of_mem hd hp))]
      simp [hc]

/-- C5 witness: a trace that first observes the never-connected state and
then an idle-after-use state past the grace period exits at the second
observation, where the exit conditions hold; an all-never-connected trace
never exits. -/
theorem runBackground_exit_conditions_witness :
    (∃ s t, ([({ active := 0, everConnected := false, lastDisconnect := 0 }, 3),
              ({ active := 0, everConnected := true, lastDisconnect := 2 }, 8)] :
        List (ConnState × Nat)).get? 1 = some (s, t) ∧ s.everConnected = true ∧
        s.active = 0 ∧ DISCONNECT_GRACE ≤ t - s.lastDisconnect) ∧
    runBackground [({ active := 0, everConnected := false, lastDisconnect := 0 }, 9)] = none :=
  ⟨runBackground_exit_conditions.1 _ 1 (by decide),
   runBackground_exit_conditions.2 _ (by decide)⟩

/-- Helper for C10: along any well-nested suffix of events, a state with a
non-negative active count keeps a non-negative active count. -/
theorem wellNested_nonneg :
    ∀ (es : List REvent) (s : ConnState), wellNested s.active es = true →
      0 ≤ s.active → 0 ≤ (runTrace s es).active := by
  intro es
  induction es with
  | nil => intro s _ h0; simpa [runTrace] using h0
  | cons e rest ih =>
    intro s hw h0
    cases e with
    | sessionStart =>
      rw [wellNested] at hw
      have : 0 ≤ s.active + 1 := by omega
      exact ih (applyEvent s REvent.sessionStart) hw this
    | sessionEnd t =>
      rw [wellNested] at hw
      simp only [Bool.and_eq_true, decide_eq_true_eq] at hw
      have : 0 ≤ s.active - 1 := by omega
      exact ih (applyEvent s (REvent.sessionEnd t)) hw.2 this

/-- C10: over every well-nested interleaving of session entries and exits
starting from the initial state, the active-connection counter stays
non-negative; and no event ever resets the ever-connected flag once it is
true. -/
theorem active_counter_nonneg_and_flag_monotone :
    (∀ es : List REvent, ValidTrace es → 0 ≤ (runTrace initState es).active) ∧
    (∀ (s : ConnState) (e : REvent), s.everConnected = true →
      (applyEvent s e).everConnected = true) := by
  constructor
  · intro es hv
    exact wellNested_nonneg es initState hv (by decide)
  · intro s e he
    cases e <;> simp [applyEvent, he]

/-- C10 witness: a start-end session pair keeps the counter non-negative,
and a session exit preserves a set ever-connected flag. -/
theorem active_counter_nonneg_and_flag_monotone_witness :
    0 ≤ (runTrace initState [REvent.sessionStart, REvent.sessionEnd 2]).active ∧
    (applyEvent { active := 1, everConnected := true, lastDisconnect := 0 }
      (REvent.sessionEnd 2)).everConnected = true :=
  ⟨active_counter_nonneg_and_flag_monotone.1 _ rfl,
   active_counter_nonneg_and_flag_monotone.2 _ (REvent.sessionEnd 2) (by decide)⟩
